import Mathlib

/-!
Verification of the MLS worker core (src/rust-mls-worker/src/mls_ops.rs and
src/rust-mls-worker/src/lib.rs) against its natural-language specification.

The Rust code wraps the openmls library; the library itself is out of scope
(the spec treats it as trusted), so every library call is a field of the
`MlsLib` parameter record below, and the worker's own logic is translated
function by function. Byte strings are lists of naturals. Rust `BTreeSet`
becomes `Finset`, `Vec` becomes `List`, `Option` stays `Option`. Rust panics
(`unwrap`, `expect`, `panic`) surface as the `Outcome.panic` constructor,
tagged by a `PanicMsg` value identifying the panic site.
-/

/-- A byte string (each entry one byte). -/
abbrev Bytes := List Nat

/-- A participant UID: the serialized credential content, a byte string. -/
abbrev UID := List Nat

/-- One leaf of the ratchet tree as `MlsGroup::members` yields it: its leaf
index and the UID carried by its credential. -/
structure Member where
  index : Nat
  uid : UID
deriving DecidableEq

/-- The MLS group as far as the worker observes it: the member leaves, the
worker's own leaf index, and the epoch authenticator bytes. -/
structure MlsGroup where
  members : List Member
  ownLeafIndex : Nat
  epochAuthenticator : Bytes
deriving DecidableEq

/-- `group.member(idx)`: the credential content of the member at a leaf
index, when that leaf is occupied. -/
def MlsGroup.memberAt (g : MlsGroup) (idx : Nat) : Option UID :=
  (g.members.find? (fun m => decide (m.index = idx))).map Member.uid

/-- A validated MLS key package: the UID bound by its credential plus the
rest of its (opaque) key material. -/
structure KeyPackage where
  uid : UID
  keyData : Bytes
deriving DecidableEq

/-- Helper function that turns a key package into a unique UID (mirrors
`kp_to_uid` in mls_ops.rs: the credential content inside the package). -/
def kp_to_uid (kp : KeyPackage) : UID := kp.uid

/-- A serialized, not yet validated key package (`KeyPackageIn`). -/
structure KeyPackageIn where
  data : Bytes
deriving DecidableEq

/-- An MLS Welcome message body. -/
structure Welcome where
  data : Bytes
deriving DecidableEq

/-- An exported ratchet tree (`RatchetTree`). -/
structure RatchetTree where
  data : Bytes
deriving DecidableEq

/-- A received, serialized ratchet tree (`RatchetTreeIn`). -/
structure RatchetTreeIn where
  data : Bytes
deriving DecidableEq

/-- The body of a deserialized incoming MLS message (`MlsMessageBodyIn`). -/
inductive MlsMessageBodyIn where
  | welcome (w : Welcome)
  | publicMessage (data : Bytes)
  | privateMessage (data : Bytes)
  | groupInfo (data : Bytes)
  | keyPackage (data : Bytes)
deriving DecidableEq

/-- A deserialized incoming MLS message (`MlsMessageIn`). -/
structure MlsMessageIn where
  body : MlsMessageBodyIn
deriving DecidableEq

/-- An outgoing MLS message (`MlsMessageOut`), kept opaque. -/
structure MlsMessageOut where
  data : Bytes
deriving DecidableEq

/-- Incoming welcome package: Welcome message plus ratchet tree
(`WelcomePackageIn`). -/
structure WelcomePackageIn where
  welcome : MlsMessageIn
  ratchet_tree : RatchetTreeIn
deriving DecidableEq

/-- Outgoing welcome package (`WelcomePackageOut`). -/
structure WelcomePackageOut where
  welcome : MlsMessageOut
  ratchet_tree : RatchetTree
deriving DecidableEq

/-- An Add proposal inside a staged commit, carrying the added key package. -/
structure AddProposal where
  key_package : KeyPackage
deriving DecidableEq

/-- A Remove proposal inside a staged commit, carrying the removed leaf
index. -/
structure RemoveProposal where
  removed : Nat
deriving DecidableEq

/-- A staged commit as the worker reads it: its Add and Remove proposals. -/
structure StagedCommit where
  addProposals : List AddProposal
  removeProposals : List RemoveProposal
deriving DecidableEq

/-- `ProcessedMessageContent` of openmls. -/
inductive ProcessedMessageContent where
  | applicationMessage (bytes : Bytes)
  | proposalMessage
  | externalJoinProposalMessage
  | stagedCommitMessage (sc : StagedCommit)
deriving DecidableEq

/-- The errors `process_message` can report, as the worker distinguishes
them: the WrongEpoch validation error is singled out in handle_commit; every
other error is collapsed into a code. -/
inductive ProcessError where
  | wrongEpoch
  | other (code : Nat)
deriving DecidableEq

/-- Where a Rust panic (unwrap / expect / panic) fires in the translated
code. Each constructor corresponds to one panic site of mls_ops.rs. -/
inductive PanicMsg where
  | startBeforeInitialize
  | cannotCreateGroup
  | errorJoiningGroup
  | expectedWelcomeMessage
  | cannotAddUser
  | cannotRemoveUser
  | mergePendingFailed
  | uidBeforeInitialize
  | cannotRemoveSelf
  | unwrapAbsentGroup
  | notProtocolMessage
  | cannotProcessMessage (code : Nat)
  | expectedCommitMessage
  | cannotMergeCommit
  | validateFailed
  | encryptUnwrap (code : Nat)
deriving DecidableEq

/-- Result of running one worker operation: a value, or a Rust panic. -/
inductive Outcome (α : Type) where
  | ok (val : α)
  | panic (msg : PanicMsg)
deriving DecidableEq

/-- The openmls operations the worker calls, abstracted: the repository
treats the MLS library as a trusted black box, so each call site is a field
here. Operations that stage a commit which the worker merges immediately
afterwards (`add_members` / `remove_members` followed by
`merge_pending_commit`, `merge_staged_commit`) are fused: the returned group
is the post-merge group. A `none` / `Except.error` value is the library
reporting failure at that call site. -/
structure MlsLib where
  newGroup : UID → Option MlsGroup
  stageWelcome : Welcome → RatchetTreeIn → Option MlsGroup
  addMembers : MlsGroup → List KeyPackage → Except Nat (MlsMessageOut × MlsMessageOut × MlsGroup)
  removeMembers : MlsGroup → List Nat → Except Nat (MlsMessageOut × MlsGroup)
  exportRatchetTree : MlsGroup → RatchetTree
  processMessage : MlsGroup → MlsMessageBodyIn → Except ProcessError ProcessedMessageContent
  mergeStagedCommit : MlsGroup → StagedCommit → Except Nat MlsGroup
  createMessage : MlsGroup → Bytes → Except Nat (Bytes × MlsGroup)
  validateKeyPackage : KeyPackageIn → Option KeyPackage
  deserializeMsg : Bytes → Except Nat MlsMessageIn

/-- `WorkerState` of mls_ops.rs. `my_credential` and `my_signing_keys` are
always set together by `WorkerState::new`, and only the UID inside the
credential is ever read, so both collapse into the optional `myUid`. -/
structure WorkerState where
  mlsGroup : Option MlsGroup
  myUid : Option UID
  users_alive_before_i_was_welcomed : Option (Finset UID)
  users_who_left_since_i_joined : Finset UID
  pending_adds : List KeyPackage
  pending_removes : List UID
deriving DecidableEq

/-- `WorkerState::default()`: everything absent or empty. -/
def WorkerState.default : WorkerState :=
  ⟨none, none, none, ∅, [], []⟩

/-- `WorkerState::new(uid)`: a fresh state carrying only the new identity.
Key-material generation is opaque to this model; the observable result is
the stored UID with every other field absent or empty. -/
def WorkerState.new (uid : UID) : WorkerState :=
  ⟨none, some uid, none, ∅, [], []⟩

/-- `WorkerResponse` of mls_ops.rs. -/
structure WorkerResponse where
  welcome : Option WelcomePackageOut
  proposals : List MlsMessageOut
  new_safety_number : Option Bytes
  key_pkg : Option KeyPackage
  sender_id : Option UID
deriving DecidableEq

/-- `WorkerResponse::default()`: all fields absent or empty. -/
def WorkerResponse.default : WorkerResponse :=
  ⟨none, [], none, none, none⟩

/-- `safety_number`: the epoch authenticator truncated to 32 bytes. The Rust
method reads it off `self.mls_group.unwrap()`; every call site below reads
it from the group just installed, so it is stated on the group. -/
def safetyNumberOf (g : MlsGroup) : Bytes :=
  g.epochAuthenticator.take 32

/-- `is_designated_committer`: true iff this user has a welcome cohort and
everyone in it has since left. -/
def WorkerState.is_designated_committer (st : WorkerState) : Bool :=
  match st.users_alive_before_i_was_welcomed with
  | some alive_at_welcome =>
      decide (alive_at_welcome \ st.users_who_left_since_i_joined = ∅)
  | none => false

/-- `start_group`: create a solo group, set the welcome cohort to the empty
set, return the new safety number. -/
def WorkerState.start_group (lib : MlsLib) (st : WorkerState) :
    Outcome (WorkerState × Bytes) :=
  match st.myUid with
  | none => Outcome.panic PanicMsg.startBeforeInitialize
  | some mu =>
    match lib.newGroup mu with
    | none => Outcome.panic PanicMsg.cannotCreateGroup
    | some g =>
      Outcome.ok
        ({ st with mlsGroup := some g, users_alive_before_i_was_welcomed := some ∅ },
         safetyNumberOf g)

/-- `join_group`: stage the Welcome; on staging failure return the default
response untouched; on success install the group, record as welcome cohort
the members with a smaller leaf index, drop freshly covered users from
`pending_adds`, and return the new safety number. A non-Welcome message body
panics. -/
def WorkerState.join_group (lib : MlsLib) (st : WorkerState) (wp : WelcomePackageIn) :
    Outcome (WorkerState × WorkerResponse) :=
  match wp.welcome.body with
  | MlsMessageBodyIn.welcome w =>
    match lib.stageWelcome w wp.ratchet_tree with
    | none => Outcome.ok (st, WorkerResponse.default)
    | some g =>
      Outcome.ok
        ({ st with
            mlsGroup := some g
            users_alive_before_i_was_welcomed :=
              some (((g.members.filter (fun m => decide (m.index < g.ownLeafIndex))).map
                Member.uid).toFinset)
            pending_adds :=
              st.pending_adds.filter
                (fun kp => !(decide (kp_to_uid kp ∈ (g.members.map Member.uid).toFinset))) },
         { WorkerResponse.default with new_safety_number := some (safetyNumberOf g) })
  | _ => Outcome.panic PanicMsg.expectedWelcomeMessage

/-- The uid-to-leaf-index resolution inside `process_pendings`: look every
pending-remove UID up among the current members, skipping UIDs no longer
present. -/
def resolveRemoveIdxs (g : MlsGroup) (uids : List UID) : List Nat :=
  uids.filterMap (fun u => (g.members.find? (fun m => decide (m.uid = u))).map Member.index)

/-- `process_pendings`: if this user is not the designated committer, do
nothing. Otherwise add all of `pending_adds` with a single `add_members`
call, merge, export the post-merge tree, remove the resolved
`pending_removes` with a single `remove_members` call, merge, clear both
buffers, and answer with the (at most one) Welcome, the (at most two)
commits, the new safety number and the own UID. -/
def WorkerState.process_pendings (lib : MlsLib) (st : WorkerState) :
    Outcome (WorkerState × WorkerResponse) :=
  if st.is_designated_committer = false then
    Outcome.ok (st, WorkerResponse.default)
  else
    match st.mlsGroup, st.myUid with
    | some group, some mu =>
      match
        (if st.pending_adds.isEmpty then Except.ok (none, none, group)
         else
          match lib.addMembers group st.pending_adds with
          | Except.error e => Except.error e
          | Except.ok (commit, w, g2) => Except.ok (some commit, some w, g2) :
          Except Nat (Option MlsMessageOut × Option MlsMessageOut × MlsGroup))
      with
      | Except.error _ => Outcome.panic PanicMsg.cannotAddUser
      | Except.ok (additions, welcomeMsg, g2) =>
        match
          (if st.pending_removes.isEmpty then Except.ok (none, g2)
           else
            match lib.removeMembers g2 (resolveRemoveIdxs g2 st.pending_removes) with
            | Except.error e => Except.error e
            | Except.ok (commit, g3) => Except.ok (some commit, g3) :
            Except Nat (Option MlsMessageOut × MlsGroup))
        with
        | Except.error _ => Outcome.panic PanicMsg.cannotRemoveUser
        | Except.ok (removal, g3) =>
          Outcome.ok
            ({ st with mlsGroup := some g3, pending_adds := [], pending_removes := [] },
             { welcome := welcomeMsg.map (fun w => ⟨w, lib.exportRatchetTree g2⟩),
               proposals := additions.toList ++ removal.toList,
               new_safety_number := some (safetyNumberOf g3),
               key_pkg := none,
               sender_id := some mu })
    | _, _ => Outcome.panic PanicMsg.unwrapAbsentGroup

/-- `user_joined`: validate the key package, append it to `pending_adds`
(unconditionally), then run `process_pendings`. -/
def WorkerState.user_joined (lib : MlsLib) (st : WorkerState) (user_kp : KeyPackageIn) :
    Outcome (WorkerState × WorkerResponse) :=
  match lib.validateKeyPackage user_kp with
  | none => Outcome.panic PanicMsg.validateFailed
  | some kp =>
    WorkerState.process_pendings lib { st with pending_adds := st.pending_adds ++ [kp] }

/-- `user_left`: panic on an attempt to remove oneself; otherwise append the
UID to `pending_removes`, insert it into `users_who_left_since_i_joined`,
then run `process_pendings`. -/
def WorkerState.user_left (lib : MlsLib) (st : WorkerState) (uid_to_remove : UID) :
    Outcome (WorkerState × WorkerResponse) :=
  match st.myUid with
  | none => Outcome.panic PanicMsg.uidBeforeInitialize
  | some mu =>
    if uid_to_remove = mu then Outcome.panic PanicMsg.cannotRemoveSelf
    else
      WorkerState.process_pendings lib
        { st with
            pending_removes := st.pending_removes ++ [uid_to_remove]
            users_who_left_since_i_joined :=
              insert uid_to_remove st.users_who_left_since_i_joined }

/-- `try_into_protocol_message().unwrap()` succeeds exactly on public and
private message bodies. -/
def isProtocolMessage (b : MlsMessageBodyIn) : Bool :=
  match b with
  | MlsMessageBodyIn.publicMessage _ => true
  | MlsMessageBodyIn.privateMessage _ => true
  | _ => false

/-- `handle_commit`: unwrap the group (panics when absent), convert to a
protocol message (panics otherwise), process it. A WrongEpoch validation
error is swallowed with the default response; any other processing error
panics. A staged commit is merged; the UIDs it adds and removes are purged
from the pending buffers; the new safety number is returned. Any other
processed content panics. -/
def WorkerState.handle_commit (lib : MlsLib) (st : WorkerState) (msg : MlsMessageIn) :
    Outcome (WorkerState × WorkerResponse) :=
  match st.mlsGroup with
  | none => Outcome.panic PanicMsg.unwrapAbsentGroup
  | some group =>
    if isProtocolMessage msg.body = false then
      Outcome.panic PanicMsg.notProtocolMessage
    else
      match lib.processMessage group msg.body with
      | Except.error ProcessError.wrongEpoch => Outcome.ok (st, WorkerResponse.default)
      | Except.error (ProcessError.other e) => Outcome.panic (PanicMsg.cannotProcessMessage e)
      | Except.ok content =>
        match content with
        | ProcessedMessageContent.stagedCommitMessage staged_com =>
          match lib.mergeStagedCommit group staged_com with
          | Except.error _ => Outcome.panic PanicMsg.cannotMergeCommit
          | Except.ok g2 =>
            Outcome.ok
              ({ st with
                  mlsGroup := some g2
                  pending_adds :=
                    st.pending_adds.filter
                      (fun kp =>
                        !(decide (kp_to_uid kp ∈
                          (staged_com.addProposals.map
                            (fun p => kp_to_uid p.key_package)).toFinset)))
                  pending_removes :=
                    st.pending_removes.filter
                      (fun u =>
                        !(decide (u ∈
                          (staged_com.removeProposals.filterMap
                            (fun p => group.memberAt p.removed)).toFinset))) },
               { WorkerResponse.default with new_safety_number := some (safetyNumberOf g2) })
        | _ => Outcome.panic PanicMsg.expectedCommitMessage

/-- `encrypt_app_msg_nofail`: without a group answer a zero-filled buffer
of the input length; with a group call the library and unwrap (an
encryption error panics). -/
def WorkerState.encrypt_app_msg_nofail (lib : MlsLib) (st : WorkerState) (msg : Bytes) :
    Outcome (Bytes × WorkerState) :=
  match st.mlsGroup with
  | none => Outcome.ok (List.replicate msg.length 0, st)
  | some group =>
    match lib.createMessage group msg with
    | Except.error e => Outcome.panic (PanicMsg.encryptUnwrap e)
    | Except.ok (ct, g2) => Outcome.ok (ct, { st with mlsGroup := some g2 })

/-- `DecryptAppMsgError` of mls_ops.rs. The WrongMsgType payload (a static
string in Rust) is encoded as a kind number: 0 = proposal, 1 = external join
proposal, 2 = staged commit. -/
inductive DecryptAppMsgError where
  | mls (code : Nat)
  | processing (err : ProcessError)
  | noGroup
  | wrongMsgType (kind : Nat)
deriving DecidableEq

/-- `decrypt_app_msg`: without a group report NoGroup; deserialize (failure
becomes the Mls error); convert to a protocol message (a non-protocol body
is an unwrap panic); process; answer the bytes of an application message and
a tagged WrongMsgType error for every other content. Processing an
application message changes no field this model observes (members, own leaf,
epoch authenticator), so the group is left as is. -/
def WorkerState.decrypt_app_msg (lib : MlsLib) (st : WorkerState) (ct : Bytes) :
    Outcome (Except DecryptAppMsgError Bytes) :=
  match st.mlsGroup with
  | none => Outcome.ok (Except.error DecryptAppMsgError.noGroup)
  | some group =>
    match lib.deserializeMsg ct with
    | Except.error e => Outcome.ok (Except.error (DecryptAppMsgError.mls e))
    | Except.ok framed =>
      if isProtocolMessage framed.body = false then
        Outcome.panic PanicMsg.notProtocolMessage
      else
        match lib.processMessage group framed.body with
        | Except.error e => Outcome.ok (Except.error (DecryptAppMsgError.processing e))
        | Except.ok (ProcessedMessageContent.applicationMessage bytes) =>
          Outcome.ok (Except.ok bytes)
        | Except.ok ProcessedMessageContent.proposalMessage =>
          Outcome.ok (Except.error (DecryptAppMsgError.wrongMsgType 0))
        | Except.ok ProcessedMessageContent.externalJoinProposalMessage =>
          Outcome.ok (Except.error (DecryptAppMsgError.wrongMsgType 1))
        | Except.ok (ProcessedMessageContent.stagedCommitMessage _) =>
          Outcome.ok (Except.error (DecryptAppMsgError.wrongMsgType 2))

/-- `decrypt_app_msg_nofail`: any decryption error becomes the empty
buffer. -/
def WorkerState.decrypt_app_msg_nofail (lib : MlsLib) (st : WorkerState) (ct : Bytes) :
    Outcome Bytes :=
  match WorkerState.decrypt_app_msg lib st ct with
  | Outcome.panic m => Outcome.panic m
  | Outcome.ok (Except.ok bytes) => Outcome.ok bytes
  | Outcome.ok (Except.error _) => Outcome.ok []

/-- The outbound event objects `processEvent` (lib.rs) posts back, one
constructor per discriminator. -/
inductive OutEvent where
  | newSafetyNumber (hash : Bytes)
  | shareKeyPackage (key_pkg : KeyPackage)
  | sendMlsWelcome (welcome : MlsMessageOut) (rtree : RatchetTree) (sender : Option UID)
  | sendMlsMessage (msg : MlsMessageOut) (sender : Option UID)
deriving DecidableEq

/-- The response-envelope assembly of `processEvent` (lib.rs): safety number
first, then key package, then the welcome, then one `sendMlsMessage` per
proposal in order. -/
def assembleResponse (r : WorkerResponse) : List OutEvent :=
  (match r.new_safety_number with
   | some sn => [OutEvent.newSafetyNumber sn]
   | none => []) ++
  (match r.key_pkg with
   | some kp => [OutEvent.shareKeyPackage kp]
   | none => []) ++
  (match r.welcome with
   | some wp => [OutEvent.sendMlsWelcome wp.welcome wp.ratchet_tree r.sender_id]
   | none => []) ++
  r.proposals.map (fun m => OutEvent.sendMlsMessage m r.sender_id)

/-! ## Concrete fixtures used by witnesses and counterexamples -/

/-- A concrete library instance whose every operation reports failure; the
fixtures below override single fields. -/
def libBase : MlsLib :=
  { newGroup := fun _ => none
    stageWelcome := fun _ _ => none
    addMembers := fun _ _ => Except.error 0
    removeMembers := fun _ _ => Except.error 0
    exportRatchetTree := fun g => ⟨g.epochAuthenticator⟩
    processMessage := fun _ _ => Except.error (ProcessError.other 0)
    mergeStagedCommit := fun _ _ => Except.error 0
    createMessage := fun _ _ => Except.error 0
    validateKeyPackage := fun _ => none
    deserializeMsg := fun _ => Except.error 0 }

/-- A three-member ratchet tree in which the joiner holds leaf 1: one member
below (leaf 0) and one above (leaf 2), as happens when several users are
welcomed by one batched Add. -/
def treeThree : MlsGroup :=
  ⟨[⟨0, [1]⟩, ⟨1, [2]⟩, ⟨2, [3]⟩], 1, List.replicate 32 7⟩

/-- Library whose Welcome staging always succeeds with `treeThree`. -/
def libStageThree : MlsLib :=
  { libBase with stageWelcome := fun _ _ => some treeThree }

/-- A syntactically valid incoming welcome package. -/
def wpWelcome : WelcomePackageIn := ⟨⟨MlsMessageBodyIn.welcome ⟨[4]⟩⟩, ⟨[]⟩⟩

/-! ## C1 -/

/-- The Welcome-Cohort set as the claim words it: the UIDs of every member
of the received tree whose leaf index is DIFFERENT from the joiner's own
leaf index. (Definition follows the claim, to be compared with the code.) -/
def welcomeCohortSpec (g : MlsGroup) : Finset UID :=
  ((g.members.filter (fun m => decide (m.index ≠ g.ownLeafIndex))).map Member.uid).toFinset

/-- C1 (amended): on a successful join, join_group installs the group and
sets the Welcome-Cohort to the set of UIDs of the members whose leaf index
is STRICTLY BELOW the joiner's own leaf index — not of all members with a
different index — while filtering the covered users out of pending_adds and
returning the new safety number. -/
theorem C1_join_group_cohort (lib : MlsLib) (st : WorkerState) (wp : WelcomePackageIn)
    (w : Welcome) (g : MlsGroup)
    (hbody : wp.welcome.body = MlsMessageBodyIn.welcome w)
    (hstage : lib.stageWelcome w wp.ratchet_tree = some g) :
    WorkerState.join_group lib st wp =
      Outcome.ok
        ({ st with
            mlsGroup := some g
            users_alive_before_i_was_welcomed :=
              some (((g.members.filter (fun m => decide (m.index < g.ownLeafIndex))).map
                Member.uid).toFinset)
            pending_adds :=
              st.pending_adds.filter
                (fun kp => !(decide (kp_to_uid kp ∈ (g.members.map Member.uid).toFinset))) },
         { WorkerResponse.default with new_safety_number := some (safetyNumberOf g) }) := by
  simp [WorkerState.join_group, hbody, hstage]

/-- C1 witness: the amended statement evaluated on `treeThree` with the
joiner at leaf 1. -/
theorem C1_join_group_cohort_witness :
    WorkerState.join_group libStageThree WorkerState.default wpWelcome =
      Outcome.ok
        ({ WorkerState.default with
            mlsGroup := some treeThree
            users_alive_before_i_was_welcomed :=
              some (((treeThree.members.filter
                (fun m => decide (m.index < treeThree.ownLeafIndex))).map Member.uid).toFinset)
            pending_adds :=
              WorkerState.default.pending_adds.filter
                (fun kp =>
                  !(decide (kp_to_uid kp ∈ (treeThree.members.map Member.uid).toFinset))) },
         { WorkerResponse.default with
            new_safety_number := some (safetyNumberOf treeThree) }) :=
  C1_join_group_cohort libStageThree WorkerState.default wpWelcome ⟨[4]⟩ treeThree rfl rfl

/-- C1 counterexample: joining via `treeThree` at leaf 1 installs the cohort
containing only the UID at leaf 0, while the set of UIDs at a leaf index
different from 1 also contains the UID at leaf 2; the two sets differ, so
the claimed equality fails. -/
theorem C1_counterexample :
    (∃ st2 r, WorkerState.join_group libStageThree WorkerState.default wpWelcome =
        Outcome.ok (st2, r) ∧
      st2.users_alive_before_i_was_welcomed = some {[1]}) ∧
    welcomeCohortSpec treeThree = {[1], [3]} ∧
    ({[1]} : Finset UID) ≠ ({[1], [3]} : Finset UID) := by
  refine ⟨⟨_, _, rfl, by decide⟩, by decide, by decide⟩

/-! ## C2 -/

/-- C2: is_designated_committer is true iff the welcome cohort is `some S`
and `S` minus the departed set is empty; in particular it is false while the
cohort is still absent (neither started a group nor welcomed). -/
theorem C2_is_dc_iff (st : WorkerState) :
    (st.is_designated_committer = true ↔
      ∃ S, st.users_alive_before_i_was_welcomed = some S ∧
        S \ st.users_who_left_since_i_joined = ∅) ∧
    (st.users_alive_before_i_was_welcomed = none →
      st.is_designated_committer = false) := by
  refine ⟨?_, ?_⟩
  · cases h : st.users_alive_before_i_was_welcomed with
    | none => simp [WorkerState.is_designated_committer, h]
    | some S => simp [WorkerState.is_designated_committer, h]
  · intro h
    simp [WorkerState.is_designated_committer, h]

/-! ## C4 -/

/-- C4: when the participant has no MLS group, handle_commit does not ignore
the message: it hits the unwrap of the absent group and panics. -/
theorem C4_handle_commit_no_group_panics (lib : MlsLib) (st : WorkerState)
    (msg : MlsMessageIn) (h : st.mlsGroup = none) :
    WorkerState.handle_commit lib st msg = Outcome.panic PanicMsg.unwrapAbsentGroup := by
  simp [WorkerState.handle_commit, h]

/-- C4 witness: a commit delivered to the default (never welcomed) state
panics. -/
theorem C4_handle_commit_no_group_witness :
    WorkerState.handle_commit libBase WorkerState.default
        ⟨MlsMessageBodyIn.privateMessage [1]⟩ =
      Outcome.panic PanicMsg.unwrapAbsentGroup :=
  C4_handle_commit_no_group_panics libBase WorkerState.default
    ⟨MlsMessageBodyIn.privateMessage [1]⟩ rfl

/-! ## C6 -/

/-- C6: when the Welcome stages but is not meant for this participant (the
staging call fails), join_group returns the untouched state and the empty
response. -/
theorem C6_join_group_stage_fail (lib : MlsLib) (st : WorkerState)
    (wp : WelcomePackageIn) (w : Welcome)
    (hbody : wp.welcome.body = MlsMessageBodyIn.welcome w)
    (hstage : lib.stageWelcome w wp.ratchet_tree = none) :
    WorkerState.join_group lib st wp = Outcome.ok (st, WorkerResponse.default) := by
  simp [WorkerState.join_group, hbody, hstage]

/-- C6 witness: a misrouted Welcome against the default state leaves it
unchanged with the empty response. -/
theorem C6_join_group_stage_fail_witness :
    WorkerState.join_group libBase WorkerState.default wpWelcome =
      Outcome.ok (WorkerState.default, WorkerResponse.default) :=
  C6_join_group_stage_fail libBase WorkerState.default wpWelcome ⟨[4]⟩ rfl rfl

/-! ## C10 -/

/-- C10: a message that deserialized but whose body is not a Welcome makes
join_group panic rather than return an empty response. -/
theorem C10_join_group_non_welcome_panics (lib : MlsLib) (st : WorkerState)
    (wp : WelcomePackageIn)
    (h : ∀ w, wp.welcome.body ≠ MlsMessageBodyIn.welcome w) :
    WorkerState.join_group lib st wp = Outcome.panic PanicMsg.expectedWelcomeMessage := by
  unfold WorkerState.join_group
  cases hb : wp.welcome.body with
  | welcome w => exact absurd hb (h w)
  | publicMessage d => rfl
  | privateMessage d => rfl
  | groupInfo d => rfl
  | keyPackage d => rfl

/-- C10 witness: a private (commit-carrying) message on the Welcome path
panics. -/
theorem C10_join_group_non_welcome_witness :
    WorkerState.join_group libBase WorkerState.default
        ⟨⟨MlsMessageBodyIn.privateMessage [5]⟩, ⟨[]⟩⟩ =
      Outcome.panic PanicMsg.expectedWelcomeMessage :=
  C10_join_group_non_welcome_panics libBase WorkerState.default
    ⟨⟨MlsMessageBodyIn.privateMessage [5]⟩, ⟨[]⟩⟩
    (fun _ hw => MlsMessageBodyIn.noConfusion hw)

/-! ## C5 -/

/-- A participant whose own UID is `[9]`: initialized, no group, not the
designated committer, empty buffers. -/
def stOwn9 : WorkerState := ⟨none, some [9], none, ∅, [], []⟩

/-- Library that validates every key package to one carrying the UID `[9]`
— the same UID as `stOwn9`. -/
def libValidateOwn : MlsLib :=
  { libBase with validateKeyPackage := fun _ => some ⟨[9], []⟩ }

/-- C5 (amended): user_joined appends the validated key package to
Pending-Adds unconditionally — there is no own-UID check — and then runs
process_pendings; in particular, when the participant is not the designated
committer the result is exactly the old state with the package appended,
even when the package carries the participant's own UID. -/
theorem C5_user_joined_appends (lib : MlsLib) (st : WorkerState)
    (kpIn : KeyPackageIn) (kp : KeyPackage)
    (hval : lib.validateKeyPackage kpIn = some kp) :
    WorkerState.user_joined lib st kpIn =
      WorkerState.process_pendings lib { st with pending_adds := st.pending_adds ++ [kp] } ∧
    (st.is_designated_committer = false →
      WorkerState.user_joined lib st kpIn =
        Outcome.ok ({ st with pending_adds := st.pending_adds ++ [kp] },
          WorkerResponse.default)) := by
  constructor
  · simp [WorkerState.user_joined, hval]
  · intro hdc
    have hdc2 : ({ st with pending_adds := st.pending_adds ++ [kp] } :
        WorkerState).is_designated_committer = false := hdc
    simp [WorkerState.user_joined, hval, WorkerState.process_pendings, hdc2]

/-- C5 witness: the amended statement at the concrete own-UID fixture. -/
theorem C5_user_joined_appends_witness :
    WorkerState.user_joined libValidateOwn stOwn9 ⟨[0]⟩ =
      WorkerState.process_pendings libValidateOwn
        { stOwn9 with pending_adds := stOwn9.pending_adds ++ [⟨[9], []⟩] } ∧
    (stOwn9.is_designated_committer = false →
      WorkerState.user_joined libValidateOwn stOwn9 ⟨[0]⟩ =
        Outcome.ok ({ stOwn9 with pending_adds := stOwn9.pending_adds ++ [⟨[9], []⟩] },
          WorkerResponse.default)) :=
  C5_user_joined_appends libValidateOwn stOwn9 ⟨[0]⟩ ⟨[9], []⟩ rfl

/-- C5 counterexample: a userJoined event whose key package carries the
participant's own UID `[9]` does change Pending-Adds — the claim says it
would be left unchanged. -/
theorem C5_counterexample :
    WorkerState.user_joined libValidateOwn stOwn9 ⟨[0]⟩ =
      Outcome.ok (⟨none, some [9], none, ∅, [⟨[9], []⟩], []⟩, WorkerResponse.default) ∧
    (⟨none, some [9], none, ∅, [⟨[9], []⟩], []⟩ : WorkerState).pending_adds ≠
      stOwn9.pending_adds := by
  constructor
  · decide
  · decide

/-! ## C7 -/

/-- A solo group holding only the member with UID `[9]` at leaf 0. -/
def gSolo : MlsGroup := ⟨[⟨0, [9]⟩], 0, List.replicate 32 1⟩

/-- A welcomed participant in `gSolo`. -/
def stInGroup9 : WorkerState := ⟨some gSolo, some [9], some ∅, ∅, [], []⟩

/-- Library whose message processing always reports WrongEpoch. -/
def libWrongEpoch : MlsLib :=
  { libBase with processMessage := fun _ _ => Except.error ProcessError.wrongEpoch }

/-- A private protocol message (the wire form of a commit). -/
def msgPriv : MlsMessageIn := ⟨MlsMessageBodyIn.privateMessage [2]⟩

/-- C7: a commit the library rejects with the WrongEpoch validation error is
silently ignored — unchanged state, empty response, hence unchanged safety
number — while any other processing error panics (is fatal). -/
theorem C7_handle_commit_wrong_epoch (lib : MlsLib) (st : WorkerState)
    (msg : MlsMessageIn) (g : MlsGroup)
    (hg : st.mlsGroup = some g)
    (hprot : isProtocolMessage msg.body = true) :
    (lib.processMessage g msg.body = Except.error ProcessError.wrongEpoch →
      WorkerState.handle_commit lib st msg = Outcome.ok (st, WorkerResponse.default)) ∧
    (∀ e, lib.processMessage g msg.body = Except.error (ProcessError.other e) →
      WorkerState.handle_commit lib st msg =
        Outcome.panic (PanicMsg.cannotProcessMessage e)) := by
  constructor
  · intro herr
    simp [WorkerState.handle_commit, hg, hprot, herr]
  · intro e herr
    simp [WorkerState.handle_commit, hg, hprot, herr]

/-- C7 witness: the statement at a concrete welcomed state and a library
reporting WrongEpoch. -/
theorem C7_handle_commit_wrong_epoch_witness :
    (libWrongEpoch.processMessage gSolo msgPriv.body =
        Except.error ProcessError.wrongEpoch →
      WorkerState.handle_commit libWrongEpoch stInGroup9 msgPriv =
        Outcome.ok (stInGroup9, WorkerResponse.default)) ∧
    (∀ e, libWrongEpoch.processMessage gSolo msgPriv.body =
        Except.error (ProcessError.other e) →
      WorkerState.handle_commit libWrongEpoch stInGroup9 msgPriv =
        Outcome.panic (PanicMsg.cannotProcessMessage e)) :=
  C7_handle_commit_wrong_epoch libWrongEpoch stInGroup9 msgPriv gSolo rfl rfl

/-! ## C9 -/

/-- C9 (amended): with no group state, encrypt returns a zero-filled buffer
of the input's length and leaves the state unchanged. (The other half of the
claim — that encrypt never fails observably — is refuted by the
counterexample: with a group present, a library encryption error panics.) -/
theorem C9_encrypt_no_group (lib : MlsLib) (st : WorkerState) (msg : Bytes)
    (h : st.mlsGroup = none) :
    WorkerState.encrypt_app_msg_nofail lib st msg =
      Outcome.ok (List.replicate msg.length 0, st) ∧
    (List.replicate msg.length 0).length = msg.length := by
  constructor
  · simp [WorkerState.encrypt_app_msg_nofail, h]
  · simp

/-- C9 witness: encrypting three bytes with no group yields three zero
bytes. -/
theorem C9_encrypt_no_group_witness :
    WorkerState.encrypt_app_msg_nofail libBase WorkerState.default [1, 2, 3] =
      Outcome.ok (List.replicate ([1, 2, 3] : Bytes).length 0, WorkerState.default) ∧
    (List.replicate ([1, 2, 3] : Bytes).length 0).length = ([1, 2, 3] : Bytes).length :=
  C9_encrypt_no_group libBase WorkerState.default [1, 2, 3] rfl

/-- C9 counterexample: with a group present and the library reporting an
encryption error, encrypt panics — an observable failure — instead of
returning zeroes of the input length. -/
theorem C9_counterexample :
    WorkerState.encrypt_app_msg_nofail libBase stInGroup9 [1, 2, 3] =
      Outcome.panic (PanicMsg.encryptUnwrap 0) := by
  decide

/-! ## C3 -/

/-- Number of `sendMlsWelcome` events in an assembled response. -/
def countWelcomeEvents (evs : List OutEvent) : Nat :=
  (evs.filter (fun e =>
    match e with
    | OutEvent.sendMlsWelcome _ _ _ => true
    | _ => false)).length

/-- Number of `sendMlsMessage` events in an assembled response. -/
def countMessageEvents (evs : List OutEvent) : Nat :=
  (evs.filter (fun e =>
    match e with
    | OutEvent.sendMlsMessage _ _ => true
    | _ => false)).length

/-- C3 (amended): when the designated committer has a non-empty Pending-Adds
buffer, process_pendings calls add-members ONCE with the entire buffer,
obtaining a single (Welcome, Add-commit) pair covering every pending user,
merges, and exports the post-merge tree into that one Welcome; the assembled
response carries the safety number, then exactly one sendMlsWelcome and one
sendMlsMessage for the whole batch of welcomed peers, followed by at most
one trailing sendMlsMessage for the Remove: none when Pending-Removes is
empty, exactly one when it is not. -/
theorem C3_process_pendings_batch (lib : MlsLib) (st : WorkerState)
    (g g2 : MlsGroup) (mu : UID) (addCommit welcomeMsg : MlsMessageOut)
    (hdc : st.is_designated_committer = true)
    (hg : st.mlsGroup = some g) (hmu : st.myUid = some mu)
    (hadds : st.pending_adds ≠ [])
    (hadd : lib.addMembers g st.pending_adds = Except.ok (addCommit, welcomeMsg, g2)) :
    (st.pending_removes = [] →
      WorkerState.process_pendings lib st =
        Outcome.ok
          ({ st with mlsGroup := some g2, pending_adds := [], pending_removes := [] },
           { welcome := some ⟨welcomeMsg, lib.exportRatchetTree g2⟩,
             proposals := [addCommit],
             new_safety_number := some (safetyNumberOf g2),
             key_pkg := none,
             sender_id := some mu }) ∧
      assembleResponse
          { welcome := some ⟨welcomeMsg, lib.exportRatchetTree g2⟩,
            proposals := [addCommit],
            new_safety_number := some (safetyNumberOf g2),
            key_pkg := none,
            sender_id := some mu } =
        [OutEvent.newSafetyNumber (safetyNumberOf g2),
         OutEvent.sendMlsWelcome welcomeMsg (lib.exportRatchetTree g2) (some mu),
         OutEvent.sendMlsMessage addCommit (some mu)]) ∧
    (∀ (removeCommit : MlsMessageOut) (g3 : MlsGroup),
      st.pending_removes ≠ [] →
      lib.removeMembers g2 (resolveRemoveIdxs g2 st.pending_removes) =
        Except.ok (removeCommit, g3) →
      WorkerState.process_pendings lib st =
        Outcome.ok
          ({ st with mlsGroup := some g3, pending_adds := [], pending_removes := [] },
           { welcome := some ⟨welcomeMsg, lib.exportRatchetTree g2⟩,
             proposals := [addCommit, removeCommit],
             new_safety_number := some (safetyNumberOf g3),
             key_pkg := none,
             sender_id := some mu }) ∧
      assembleResponse
          { welcome := some ⟨welcomeMsg, lib.exportRatchetTree g2⟩,
            proposals := [addCommit, removeCommit],
            new_safety_number := some (safetyNumberOf g3),
            key_pkg := none,
            sender_id := some mu } =
        [OutEvent.newSafetyNumber (safetyNumberOf g3),
         OutEvent.sendMlsWelcome welcomeMsg (lib.exportRatchetTree g2) (some mu),
         OutEvent.sendMlsMessage addCommit (some mu),
         OutEvent.sendMlsMessage removeCommit (some mu)]) := by
  have hA : st.pending_adds.isEmpty = false := by
    cases h : st.pending_adds with
    | nil => exact absurd h hadds
    | cons a l => rfl
  constructor
  · intro hempty
    have hR : st.pending_removes.isEmpty = true := by rw [hempty]; rfl
    constructor
    · simp [WorkerState.process_pendings, hdc, hg, hmu, hA, hR, hadd]
    · simp [assembleResponse]
  · intro removeCommit g3 hrems hrem
    have hR : st.pending_removes.isEmpty = false := by
      cases h : st.pending_removes with
      | nil => exact absurd h hrems
      | cons a l => rfl
    constructor
    · simp [WorkerState.process_pendings, hdc, hg, hmu, hA, hR, hadd, hrem]
    · simp [assembleResponse]

/-- Two users pending addition. -/
def kpB : KeyPackage := ⟨[2], [20]⟩

/-- Another user pending addition. -/
def kpC : KeyPackage := ⟨[3], [30]⟩

/-- The designated committer's solo group before committing. -/
def gDC : MlsGroup := ⟨[⟨0, [9]⟩], 0, List.replicate 32 2⟩

/-- The group after the batched Add of `kpB` and `kpC`. -/
def gDC2 : MlsGroup := ⟨[⟨0, [9]⟩, ⟨1, [2]⟩, ⟨2, [3]⟩], 0, List.replicate 32 3⟩

/-- The group after the subsequent Remove. -/
def gDC3 : MlsGroup := ⟨[⟨0, [9]⟩, ⟨2, [3]⟩], 0, List.replicate 32 4⟩

/-- A designated committer (started the group, so the cohort is empty) with
TWO pending adds and one pending remove. -/
def stDC : WorkerState := ⟨some gDC, some [9], some ∅, ∅, [kpB, kpC], [[7]]⟩

/-- The single Add commit the library hands back for the whole batch. -/
def outAdd : MlsMessageOut := ⟨[100]⟩

/-- The single Welcome the library hands back for the whole batch. -/
def outWel : MlsMessageOut := ⟨[101]⟩

/-- The Remove commit the library hands back. -/
def outRem : MlsMessageOut := ⟨[102]⟩

/-- Library fixture whose add and remove operations succeed with the values
above. -/
def libDC : MlsLib :=
  { libBase with
      addMembers := fun _ _ => Except.ok (outAdd, outWel, gDC2)
      removeMembers := fun _ _ => Except.ok (outRem, gDC3) }

/-- Same designated committer with two pending adds but nothing pending
removal. -/
def stDCnoRem : WorkerState := ⟨some gDC, some [9], some ∅, ∅, [kpB, kpC], []⟩

/-- C3 witness: the amended statement at the two-pending-adds fixture, both
with an empty Pending-Removes buffer (no trailing Remove) and with one
pending remove (exactly one trailing Remove). -/
theorem C3_process_pendings_batch_witness :
    (WorkerState.process_pendings libDC stDCnoRem =
      Outcome.ok
        ({ stDCnoRem with mlsGroup := some gDC2, pending_adds := [], pending_removes := [] },
         { welcome := some ⟨outWel, libDC.exportRatchetTree gDC2⟩,
           proposals := [outAdd],
           new_safety_number := some (safetyNumberOf gDC2),
           key_pkg := none,
           sender_id := some [9] }) ∧
    assembleResponse
        { welcome := some ⟨outWel, libDC.exportRatchetTree gDC2⟩,
          proposals := [outAdd],
          new_safety_number := some (safetyNumberOf gDC2),
          key_pkg := none,
          sender_id := some [9] } =
      [OutEvent.newSafetyNumber (safetyNumberOf gDC2),
       OutEvent.sendMlsWelcome outWel (libDC.exportRatchetTree gDC2) (some [9]),
       OutEvent.sendMlsMessage outAdd (some [9])]) ∧
    (WorkerState.process_pendings libDC stDC =
      Outcome.ok
        ({ stDC with mlsGroup := some gDC3, pending_adds := [], pending_removes := [] },
         { welcome := some ⟨outWel, libDC.exportRatchetTree gDC2⟩,
           proposals := [outAdd, outRem],
           new_safety_number := some (safetyNumberOf gDC3),
           key_pkg := none,
           sender_id := some [9] }) ∧
    assembleResponse
        { welcome := some ⟨outWel, libDC.exportRatchetTree gDC2⟩,
          proposals := [outAdd, outRem],
          new_safety_number := some (safetyNumberOf gDC3),
          key_pkg := none,
          sender_id := some [9] } =
      [OutEvent.newSafetyNumber (safetyNumberOf gDC3),
       OutEvent.sendMlsWelcome outWel (libDC.exportRatchetTree gDC2) (some [9]),
       OutEvent.sendMlsMessage outAdd (some [9]),
       OutEvent.sendMlsMessage outRem (some [9])]) :=
  ⟨(C3_process_pendings_batch libDC stDCnoRem gDC gDC2 [9] outAdd outWel
      (by decide) rfl rfl (by decide) rfl).1 rfl,
   (C3_process_pendings_batch libDC stDC gDC gDC2 [9] outAdd outWel
      (by decide) rfl rfl (by decide) rfl).2 outRem gDC3 (by decide) rfl⟩

/-- The state after the fixture drain. -/
def stDCPost : WorkerState := ⟨some gDC3, some [9], some ∅, ∅, [], []⟩

/-- The response the fixture drain returns. -/
def respDC : WorkerResponse :=
  ⟨some ⟨outWel, ⟨gDC2.epochAuthenticator⟩⟩, [outAdd, outRem],
    some (safetyNumberOf gDC3), none, some [9]⟩

/-- C3 counterexample: with TWO pending adds the drained response carries
exactly ONE sendMlsWelcome and ONE Add sendMlsMessage (plus the one Remove),
not one sendMlsWelcome + one sendMlsMessage per welcomed peer as claimed:
one Welcome event against two welcomed peers. -/
theorem C3_counterexample :
    stDC.pending_adds.length = 2 ∧
    WorkerState.process_pendings libDC stDC = Outcome.ok (stDCPost, respDC) ∧
    countWelcomeEvents (assembleResponse respDC) = 1 ∧
    countMessageEvents (assembleResponse respDC) = 2 ∧
    countWelcomeEvents (assembleResponse respDC) ≠ stDC.pending_adds.length := by
  refine ⟨by decide, by decide, by decide, by decide, by decide⟩

/-! ## C8 -/

/-- The invariant: the participant's own UID is never in Pending-Removes. -/
def OwnNotInPendingRemoves (st : WorkerState) : Prop :=
  ∀ u, st.myUid = some u → u ∉ st.pending_removes

/-- How start_group may change the fields relevant to the invariant: not at
all. -/
theorem start_group_ok_shape (lib : MlsLib) (st st2 : WorkerState) (sn : Bytes)
    (h : WorkerState.start_group lib st = Outcome.ok (st2, sn)) :
    st2.myUid = st.myUid ∧ st2.pending_removes = st.pending_removes := by
  unfold WorkerState.start_group at h
  split at h
  · exact absurd h (by simp)
  · split at h
    · exact absurd h (by simp)
    · simp only [Outcome.ok.injEq, Prod.mk.injEq] at h
      obtain ⟨h1, h2⟩ := h
      subst h1
      exact ⟨rfl, rfl⟩

/-- How join_group may change the fields relevant to the invariant: not at
all. -/
theorem join_group_ok_shape (lib : MlsLib) (st st2 : WorkerState)
    (wp : WelcomePackageIn) (r : WorkerResponse)
    (h : WorkerState.join_group lib st wp = Outcome.ok (st2, r)) :
    st2.myUid = st.myUid ∧ st2.pending_removes = st.pending_removes := by
  unfold WorkerState.join_group at h
  split at h
  · split at h
    · simp only [Outcome.ok.injEq, Prod.mk.injEq] at h
      obtain ⟨h1, h2⟩ := h
      subst h1
      exact ⟨rfl, rfl⟩
    · simp only [Outcome.ok.injEq, Prod.mk.injEq] at h
      obtain ⟨h1, h2⟩ := h
      subst h1
      exact ⟨rfl, rfl⟩
  · exact absurd h (by simp)

/-- How process_pendings may change the fields relevant to the invariant:
the own UID never, Pending-Removes either untouched or cleared. -/
theorem process_pendings_ok_shape (lib : MlsLib) (st st2 : WorkerState)
    (r : WorkerResponse)
    (h : WorkerState.process_pendings lib st = Outcome.ok (st2, r)) :
    st2.myUid = st.myUid ∧
      (st2.pending_removes = st.pending_removes ∨ st2.pending_removes = []) := by
  unfold WorkerState.process_pendings at h
  split at h
  · simp only [Outcome.ok.injEq, Prod.mk.injEq] at h
    obtain ⟨h1, h2⟩ := h
    subst h1
    exact ⟨rfl, Or.inl rfl⟩
  · split at h
    · split at h
      · exact absurd h (by simp)
      · split at h
        · exact absurd h (by simp)
        · simp only [Outcome.ok.injEq, Prod.mk.injEq] at h
          obtain ⟨h1, h2⟩ := h
          subst h1
          exact ⟨rfl, Or.inr rfl⟩
    · exact absurd h (by simp)

/-- How user_joined may change the fields relevant to the invariant: the own
UID never, Pending-Removes either untouched or cleared. -/
theorem user_joined_ok_shape (lib : MlsLib) (st st2 : WorkerState)
    (kp : KeyPackageIn) (r : WorkerResponse)
    (h : WorkerState.user_joined lib st kp = Outcome.ok (st2, r)) :
    st2.myUid = st.myUid ∧
      (st2.pending_removes = st.pending_removes ∨ st2.pending_removes = []) := by
  unfold WorkerState.user_joined at h
  cases hv : lib.validateKeyPackage kp with
  | none =>
    rw [hv] at h
    simp at h
  | some kp2 =>
    rw [hv] at h
    exact process_pendings_ok_shape lib
      { st with pending_adds := st.pending_adds ++ [kp2] } st2 r h

/-- How user_left may change the fields relevant to the invariant: the own
UID never; the removed UID differs from the own UID; Pending-Removes is
either the old buffer with that UID appended, or cleared. -/
theorem user_left_ok_shape (lib : MlsLib) (st st2 : WorkerState)
    (uid : UID) (r : WorkerResponse)
    (h : WorkerState.user_left lib st uid = Outcome.ok (st2, r)) :
    st2.myUid = st.myUid ∧ (∀ u, st.myUid = some u → uid ≠ u) ∧
      (st2.pending_removes = st.pending_removes ++ [uid] ∨
        st2.pending_removes = []) := by
  unfold WorkerState.user_left at h
  split at h
  · exact absurd h (by simp)
  · next mu hmu =>
    split at h
    · exact absurd h (by simp)
    · next hne =>
      obtain ⟨h1, h2⟩ := process_pendings_ok_shape lib _ st2 r h
      refine ⟨h1, ?_, h2⟩
      intro u hu
      rw [hmu] at hu
      cases hu
      intro he
      exact hne he

/-- How handle_commit may change the fields relevant to the invariant: the
own UID never, Pending-Removes either untouched or filtered down. -/
theorem handle_commit_ok_shape (lib : MlsLib) (st st2 : WorkerState)
    (msg : MlsMessageIn) (r : WorkerResponse)
    (h : WorkerState.handle_commit lib st msg = Outcome.ok (st2, r)) :
    st2.myUid = st.myUid ∧
      (st2.pending_removes = st.pending_removes ∨
        ∃ p, st2.pending_removes = st.pending_removes.filter p) := by
  unfold WorkerState.handle_commit at h
  split at h
  · exact absurd h (by simp)
  · split at h
    · exact absurd h (by simp)
    · split at h
      · simp only [Outcome.ok.injEq, Prod.mk.injEq] at h
        obtain ⟨h1, h2⟩ := h
        subst h1
        exact ⟨rfl, Or.inl rfl⟩
      · exact absurd h (by simp)
      · split at h
        · split at h
          · exact absurd h (by simp)
          · simp only [Outcome.ok.injEq, Prod.mk.injEq] at h
            obtain ⟨h1, h2⟩ := h
            subst h1
            exact ⟨rfl, Or.inr ⟨_, rfl⟩⟩
        · exact absurd h (by simp)

/-- How encrypt_app_msg_nofail may change the fields relevant to the
invariant: not at all. -/
theorem encrypt_ok_shape (lib : MlsLib) (st st2 : WorkerState)
    (msg ct : Bytes)
    (h : WorkerState.encrypt_app_msg_nofail lib st msg = Outcome.ok (ct, st2)) :
    st2.myUid = st.myUid ∧ st2.pending_removes = st.pending_removes := by
  unfold WorkerState.encrypt_app_msg_nofail at h
  split at h
  · simp only [Outcome.ok.injEq, Prod.mk.injEq] at h
    obtain ⟨h1, h2⟩ := h
    subst h2
    exact ⟨rfl, rfl⟩
  · split at h
    · exact absurd h (by simp)
    · simp only [Outcome.ok.injEq, Prod.mk.injEq] at h
      obtain ⟨h1, h2⟩ := h
      subst h2
      exact ⟨rfl, rfl⟩

/-- One completed (non-panicking) worker operation, relating the state it
starts in to the state it completes in. -/
inductive OpStep : WorkerState → WorkerState → Prop where
  | start (lib : MlsLib) (st st2 : WorkerState) (sn : Bytes) :
      WorkerState.start_group lib st = Outcome.ok (st2, sn) → OpStep st st2
  | join (lib : MlsLib) (st st2 : WorkerState) (wp : WelcomePackageIn)
      (r : WorkerResponse) :
      WorkerState.join_group lib st wp = Outcome.ok (st2, r) → OpStep st st2
  | joined (lib : MlsLib) (st st2 : WorkerState) (kp : KeyPackageIn)
      (r : WorkerResponse) :
      WorkerState.user_joined lib st kp = Outcome.ok (st2, r) → OpStep st st2
  | left (lib : MlsLib) (st st2 : WorkerState) (uid : UID) (r : WorkerResponse) :
      WorkerState.user_left lib st uid = Outcome.ok (st2, r) → OpStep st st2
  | commit (lib : MlsLib) (st st2 : WorkerState) (msg : MlsMessageIn)
      (r : WorkerResponse) :
      WorkerState.handle_commit lib st msg = Outcome.ok (st2, r) → OpStep st st2
  | pendings (lib : MlsLib) (st st2 : WorkerState) (r : WorkerResponse) :
      WorkerState.process_pendings lib st = Outcome.ok (st2, r) → OpStep st st2
  | encrypt (lib : MlsLib) (st st2 : WorkerState) (msg ct : Bytes) :
      WorkerState.encrypt_app_msg_nofail lib st msg = Outcome.ok (ct, st2) →
      OpStep st st2
  | decrypt (lib : MlsLib) (st : WorkerState) (ct bytes : Bytes) :
      WorkerState.decrypt_app_msg_nofail lib st ct = Outcome.ok bytes →
      OpStep st st
  | reset (st : WorkerState) (uid : UID) :
      OpStep st (WorkerState.new uid)

/-- C8: asking a participant to remove its own UID panics; the invariant
that Pending-Removes never contains the participant's own UID holds in the
initial states and is preserved by every completed operation. -/
theorem C8_no_self_in_pending_removes :
    (∀ (lib : MlsLib) (st : WorkerState) (mu : UID), st.myUid = some mu →
      WorkerState.user_left lib st mu = Outcome.panic PanicMsg.cannotRemoveSelf) ∧
    (OwnNotInPendingRemoves WorkerState.default ∧
      ∀ uid, OwnNotInPendingRemoves (WorkerState.new uid)) ∧
    (∀ st st2 : WorkerState, OwnNotInPendingRemoves st → OpStep st st2 →
      OwnNotInPendingRemoves st2) := by
  refine ⟨?_, ⟨fun u _ => List.not_mem_nil u, fun uid u _ => List.not_mem_nil u⟩, ?_⟩
  · intro lib st mu hmu
    simp [WorkerState.user_left, hmu]
  · intro st st2 hinv hstep
    cases hstep with
    | start lib st st2 sn h =>
      obtain ⟨h1, h2⟩ := start_group_ok_shape lib st st2 sn h
      intro u hu
      rw [h2]
      exact hinv u (h1 ▸ hu)
    | join lib st st2 wp r h =>
      obtain ⟨h1, h2⟩ := join_group_ok_shape lib st st2 wp r h
      intro u hu
      rw [h2]
      exact hinv u (h1 ▸ hu)
    | joined lib st st2 kp r h =>
      obtain ⟨h1, h2⟩ := user_joined_ok_shape lib st st2 kp r h
      intro u hu
      cases h2 with
      | inl he =>
        rw [he]
        exact hinv u (h1 ▸ hu)
      | inr he =>
        rw [he]
        exact List.not_mem_nil u
    | left lib st st2 uid r h =>
      obtain ⟨h1, hne, h2⟩ := user_left_ok_shape lib st st2 uid r h
      intro u hu
      have hu0 : st.myUid = some u := h1 ▸ hu
      cases h2 with
      | inl he =>
        rw [he]
        intro hmem
        cases List.mem_append.mp hmem with
        | inl hold => exact hinv u hu0 hold
        | inr hnew =>
          exact hne u hu0 (List.mem_singleton.mp hnew).symm
      | inr he =>
        rw [he]
        exact List.not_mem_nil u
    | commit lib st st2 msg r h =>
      obtain ⟨h1, h2⟩ := handle_commit_ok_shape lib st st2 msg r h
      intro u hu
      have hu0 : st.myUid = some u := h1 ▸ hu
      cases h2 with
      | inl he =>
        rw [he]
        exact hinv u hu0
      | inr he =>
        obtain ⟨p, hp⟩ := he
        rw [hp]
        intro hmem
        exact hinv u hu0 (List.mem_of_mem_filter hmem)
    | pendings lib st st2 r h =>
      obtain ⟨h1, h2⟩ := process_pendings_ok_shape lib st st2 r h
      intro u hu
      cases h2 with
      | inl he =>
        rw [he]
        exact hinv u (h1 ▸ hu)
      | inr he =>
        rw [he]
        exact List.not_mem_nil u
    | encrypt lib st st2 msg ct h =>
      obtain ⟨h1, h2⟩ := encrypt_ok_shape lib st st2 msg ct h
      intro u hu
      rw [h2]
      exact hinv u (h1 ▸ hu)
    | decrypt lib st ct bytes h =>
      exact hinv
    | reset st uid =>
      intro u hu
      exact List.not_mem_nil u

/-- C8 witness: the self-removal panic and the invariant step evaluated at a
concrete state. -/
theorem C8_no_self_in_pending_removes_witness :
    WorkerState.user_left libBase stOwn9 [9] =
      Outcome.panic PanicMsg.cannotRemoveSelf :=
  C8_no_self_in_pending_removes.1 libBase stOwn9 [9] rfl
